import Mathlib

/-!
Verification development for the Drupal project estimation calculator
(`website-audit/scripts/calculate_estimate.py`).

The estimation engine is embedded shallowly:
* Python `float` arithmetic is modelled by exact rationals (`ℚ`); the engine
  performs no rounding before presentation, so every arithmetic identity below
  is stated over the exact values.
* Python dicts that the engine reads by key are modelled as association lists
  (`List (String × _)`) consulted with `List.lookup`, which mirrors dict
  lookup (dict keys are unique, so first-match lookup agrees).
* `dict.get(key, default)` becomes `(List.lookup key l).getD default` or
  `Option.getD` on an optional field.
* Python functions that can `raise` return `Except String _`.
* The single input dict `entities_data` is modelled by the structure
  `EntitiesData`, whose `categories` field holds the category-keyed entity
  lists (including unrecognized keys such as `"widgets"`) and whose remaining
  fields hold the configuration keys the engine reads (`multipliers`,
  `migration`, `risk_level`, `assumptions`, `risks`).  `calculate_base_hours`
  only consults the fixed `entity_type_map` keys, so carrying the
  configuration keys separately does not change its behaviour.
-/

/-- One record of the input inventory: `{"name": ..., "complexity": ...}`.
Both keys are read with `dict.get` and may be absent. -/
structure Entity where
  name : Option String
  complexity : Option String
deriving DecidableEq

/-- Mirrors the `EntityEstimate` dataclass. -/
structure EntityEstimate where
  name : String
  type : String
  complexity : String
  hours : ℚ
deriving DecidableEq

/-- The `migration` sub-dict: `nodes` and `complexity`, both optional.
`none` at the config level stands for an absent or empty (falsy) dict. -/
structure Migration where
  nodes : Option ℚ
  complexity : Option String
deriving DecidableEq

/-- The input document `entities_data`, split by the keys the engine reads. -/
structure EntitiesData where
  categories : List (String × List Entity)
  multipliers : List (String × ℚ)
  migration : Option Migration
  risk_level : Option String
  assumptions : Option (List String)
  risks : Option (List String)
deriving DecidableEq

/-- Mirrors the `EstimationResult` dataclass. -/
structure EstimationResult where
  base_hours : ℚ
  multiplier_hours : ℚ
  migration_hours : ℚ
  additional_hours : ℚ
  subtotal : ℚ
  buffer_hours : ℚ
  total_hours : ℚ
  entity_breakdown : List EntityEstimate
  multipliers_applied : List (String × ℚ)
  assumptions : List String
  risks : List String
deriving DecidableEq

/-- `ESTIMATION_TABLE`: nine categories, three complexity tiers each.
Python literals 1.5 and 3.5 are the rationals 3/2 and 7/2. -/
def ESTIMATION_TABLE : List (String × List (String × ℚ)) :=
  [("content_type", [("simple", 3), ("medium", 6), ("complex", 12)]),
   ("paragraph", [("simple", 3/2), ("medium", 7/2), ("complex", 6)]),
   ("taxonomy", [("simple", 3/2), ("medium", 3), ("complex", 6)]),
   ("media_type", [("simple", 3/2), ("medium", 3), ("complex", 7/2)]),
   ("view", [("simple", 3), ("medium", 6), ("complex", 12)]),
   ("webform", [("simple", 3), ("medium", 6), ("complex", 12)]),
   ("block", [("simple", 3/2), ("medium", 3), ("complex", 6)]),
   ("custom_module", [("simple", 12), ("medium", 28), ("complex", 70)]),
   ("theme_component", [("simple", 3), ("medium", 6), ("complex", 12)])]

/-- `MIGRATION_BASE`: hours per 100 nodes before the complexity factor. -/
def MIGRATION_BASE : ℚ := 10

/-- `MIGRATION_MULTIPLIERS` (3.5 is 7/2). -/
def MIGRATION_MULTIPLIERS : List (String × ℚ) :=
  [("simple", 1), ("medium", 2), ("complex", 7/2)]

/-- `ADDITIONAL_EFFORT`: fixed hours.  The code indexes this dict with the
two literal keys that are present, so the `getD 0` used at the access sites
below always hits the stored value. -/
def ADDITIONAL_EFFORT : List (String × ℚ) :=
  [("infrastructure_setup", 60), ("training_handover", 30)]

/-- `BUFFER_PERCENTAGES` (0.15, 0.20, 0.25). -/
def BUFFER_PERCENTAGES : List (String × ℚ) :=
  [("low", 3/20), ("medium", 1/5), ("high", 1/4)]

/-- Default value of the `pm_percentage` parameter of `calculate_pm_hours`
(Python literal 0.18). -/
def PM_PERCENTAGE : ℚ := 18/100

/-- The canned assumptions list inlined at the `entities_data.get` call. -/
def DEFAULT_ASSUMPTIONS : List String :=
  ["Requirements are clearly defined",
   "Team has Drupal experience",
   "Standard development practices followed",
   "No major scope changes expected"]

/-- The canned risks list inlined at the `entities_data.get` call. -/
def DEFAULT_RISKS : List String :=
  ["Requirements may evolve during development",
   "Migration complexity may be higher than assessed",
   "Third-party integrations may require additional effort"]

deriving instance DecidableEq for Except

/-- Python `str.lower`.  (`String.toLower` itself is defined by recursion on
byte positions and does not reduce in the kernel, so the same map is taken
over the character list; the strings the engine compares are ASCII.) -/
def strLower (s : String) : String := ⟨s.data.map Char.toLower⟩

/-- Association-list lookup with propositional key comparison; mirrors
Python dict lookup (dict keys are unique, so first-match lookup agrees). -/
def lookup {α : Type} (k : String) : List (String × α) → Option α
  | [] => none
  | (a, b) :: es => if k = a then some b else lookup k es

/-- `calculate_entity_hours`: resolve name/complexity defaults, raise on an
unknown entity type, fall back to 0 hours on an unknown complexity tier. -/
def calculate_entity_hours (entity : Entity) (entity_type : String) :
    Except String EntityEstimate :=
  let name := entity.name.getD "Unknown"
  let complexity := strLower (entity.complexity.getD "medium")
  match lookup entity_type ESTIMATION_TABLE with
  | none => .error ("Unknown entity type: " ++ entity_type)
  | some tbl =>
    .ok { name := name, type := entity_type, complexity := complexity,
          hours := (lookup complexity tbl).getD 0 }

/-- `entity_type_map` from `calculate_base_hours`: input key → entity type. -/
def entity_type_map : List (String × String) :=
  [("content_types", "content_type"),
   ("paragraphs", "paragraph"),
   ("taxonomies", "taxonomy"),
   ("media_types", "media_type"),
   ("views", "view"),
   ("webforms", "webform"),
   ("blocks", "block"),
   ("custom_modules", "custom_module"),
   ("theme_components", "theme_component")]

/-- Inner loop of `calculate_base_hours` over one category's entity list:
accumulates the hour total and the breakdown in input order. -/
def processEntities (l : List Entity) (entity_type : String) :
    Except String (ℚ × List EntityEstimate) :=
  match l with
  | [] => .ok (0, [])
  | e :: rest =>
    match calculate_entity_hours e entity_type, processEntities rest entity_type with
    | .error msg, _ => .error msg
    | .ok _, .error msg => .error msg
    | .ok est, .ok (h, br) => .ok (est.hours + h, est :: br)

/-- Outer loop of `calculate_base_hours` over the fixed key map: keys absent
from the input contribute nothing; input keys outside the map are never
consulted. -/
def calcBaseHoursAux (km : List (String × String))
    (entities : List (String × List Entity)) :
    Except String (ℚ × List EntityEstimate) :=
  match km with
  | [] => .ok (0, [])
  | (key, ety) :: rest =>
    let contrib :=
      match lookup key entities with
      | none => Except.ok ((0 : ℚ), ([] : List EntityEstimate))
      | some l => processEntities l ety
    match contrib, calcBaseHoursAux rest entities with
    | .error msg, _ => .error msg
    | .ok _, .error msg => .error msg
    | .ok (h1, b1), .ok (h2, b2) => .ok (h1 + h2, b1 ++ b2)

/-- `calculate_base_hours`. -/
def calculate_base_hours (entities : List (String × List Entity)) :
    Except String (ℚ × List EntityEstimate) :=
  calcBaseHoursAux entity_type_map entities

/-- `calculate_migration_hours`.  The Python guard `if not migration_config`
(absent or empty dict) is the `none` case. -/
def calculate_migration_hours (migration_config : Option Migration) : ℚ :=
  match migration_config with
  | none => 0
  | some m =>
    let base_setup : ℚ := 30
    let nodes := m.nodes.getD 0
    let complexity := strLower (m.complexity.getD "medium")
    if nodes = 0 then 0
    else
      let multiplier := (lookup complexity MIGRATION_MULTIPLIERS).getD 2
      let hours_per_100 := MIGRATION_BASE * multiplier
      let node_hours := (nodes / 100) * hours_per_100
      base_setup + node_hours

/-- `apply_multipliers`: one addend per multiplier, each against
`base_hours`; the applied map preserves input order. -/
def apply_multipliers (base_hours : ℚ) (multipliers : List (String × ℚ)) :
    ℚ × List (String × ℚ) :=
  match multipliers with
  | [] => (0, [])
  | (key, percentage) :: rest =>
    let hours := base_hours * percentage
    let (t, applied) := apply_multipliers base_hours rest
    (hours + t, (key, hours) :: applied)

/-- `calculate_pm_hours` (the Python parameter defaults to 0.18; every call
site passes `PM_PERCENTAGE`). -/
def calculate_pm_hours (subtotal pm_percentage : ℚ) : ℚ :=
  subtotal * pm_percentage

/-- Body of `calculate_estimate` after the `calculate_base_hours` call,
with the base hours and breakdown it produced. -/
def estimateFrom (entities_data : EntitiesData) (base_hours : ℚ)
    (breakdown : List EntityEstimate) : EstimationResult :=
  let mp := apply_multipliers base_hours entities_data.multipliers
  let multiplier_hours := mp.1
  let applied_multipliers := mp.2
  let migration_hours := calculate_migration_hours entities_data.migration
  let infrastructure := (lookup "infrastructure_setup" ADDITIONAL_EFFORT).getD 0
  let training := (lookup "training_handover" ADDITIONAL_EFFORT).getD 0
  let subtotal_before_pm :=
    base_hours + multiplier_hours + migration_hours + infrastructure + training
  let pm_hours := calculate_pm_hours subtotal_before_pm PM_PERCENTAGE
  let additional_hours := infrastructure + training + pm_hours
  let subtotal := subtotal_before_pm + pm_hours
  let risk_level := strLower (entities_data.risk_level.getD "medium")
  let buffer_percentage := (lookup risk_level BUFFER_PERCENTAGES).getD (1/5)
  let buffer_hours := subtotal * buffer_percentage
  let total_hours := subtotal + buffer_hours
  let assumptions := entities_data.assumptions.getD DEFAULT_ASSUMPTIONS
  let risks := entities_data.risks.getD DEFAULT_RISKS
  { base_hours := base_hours,
    multiplier_hours := multiplier_hours,
    migration_hours := migration_hours,
    additional_hours := additional_hours,
    subtotal := subtotal,
    buffer_hours := buffer_hours,
    total_hours := total_hours,
    entity_breakdown := breakdown,
    multipliers_applied := applied_multipliers,
    assumptions := assumptions,
    risks := risks }

/-- `calculate_estimate`: an exception from `calculate_base_hours`
propagates; otherwise the result record is built from its output. -/
def calculate_estimate (entities_data : EntitiesData) :
    Except String EstimationResult :=
  match calculate_base_hours entities_data.categories with
  | .error msg => .error msg
  | .ok (base_hours, breakdown) =>
    .ok (estimateFrom entities_data base_hours breakdown)

/-- Python float division: raises `ZeroDivisionError` on a zero divisor
(it does not produce an IEEE infinity). -/
def pydiv (a b : ℚ) : Except String ℚ :=
  if b = 0 then .error "float division by zero" else .ok (a / b)

/-- The multiplier-table loop of `format_estimation_report`: each row's
percentage is `hours / result.base_hours * 100`, unguarded. -/
def multiplierRows (rows : List (String × ℚ)) (base_hours : ℚ) :
    Except String (List ℚ) :=
  match rows with
  | [] => .ok []
  | (_, hours) :: rest =>
    match pydiv hours base_hours, multiplierRows rest base_hours with
    | .error msg, _ => .error msg
    | .ok _, .error msg => .error msg
    | .ok p, .ok ps => .ok (p * 100 :: ps)

/-- Numeric core of `format_estimation_report`: the divisions it performs,
in evaluation order.  The six summary-table rows each divide by
`result.total_hours`; the multiplier rows each divide by
`result.base_hours`.  (The timeline and range divisions use the nonzero
literal divisors 40/160/30/120/20/80 and cannot fault.)  No division is
guarded in the source. -/
def reportPercentages (result : EstimationResult) : Except String (List ℚ) := do
  let p1 ← pydiv result.base_hours result.total_hours
  let p2 ← pydiv result.multiplier_hours result.total_hours
  let p3 ← pydiv result.migration_hours result.total_hours
  let p4 ← pydiv result.additional_hours result.total_hours
  let p5 ← pydiv result.subtotal result.total_hours
  let p6 ← pydiv result.buffer_hours result.total_hours
  let ps ← multiplierRows result.multipliers_applied result.base_hours
  .ok ([p1 * 100, p2 * 100, p3 * 100, p4 * 100, p5 * 100, p6 * 100] ++ ps)

/-- Specification-level description of one entity's estimate: what
`calculate_entity_hours` returns on a recognized entity type.  Used to state
that the breakdown lists the input entities in input order. -/
def entityEstimateSpec (e : Entity) (ety : String) : EntityEstimate :=
  { name := e.name.getD "Unknown",
    type := ety,
    complexity := strLower (e.complexity.getD "medium"),
    hours :=
      match lookup ety ESTIMATION_TABLE with
      | none => 0
      | some tbl => (lookup (strLower (e.complexity.getD "medium")) tbl).getD 0 }

/-- Specification-level breakdown: per key of the key map in map order, the
input entity list of that category mapped in input order. -/
def breakdownSpec (km : List (String × String))
    (c : List (String × List Entity)) : List EntityEstimate :=
  match km with
  | [] => []
  | (key, ety) :: rest =>
    (match lookup key c with
     | none => []
     | some l => l.map (fun e => entityEstimateSpec e ety)) ++ breakdownSpec rest c

/-- Total of the hour fields of a breakdown. -/
def hoursSum (br : List EntityEstimate) : ℚ := (br.map EntityEstimate.hours).sum

/-- Category-wise permutation of two inventories' entity lists. -/
def OptListPerm : Option (List Entity) → Option (List Entity) → Prop
  | none, none => True
  | some l1, some l2 => l1.Perm l2
  | _, _ => False

/-- A category key the cost model recognizes (a key of `entity_type_map`). -/
def recognized_category (k : String) : Bool := (lookup k entity_type_map).isSome

/-- The migration complexity factor exactly as the specification words it:
simple is 1.0, medium is 2.0, complex is 3.5, and an unrecognized value
defaults to the medium rate. -/
def claimedComplexityMultiplier (c : String) : ℚ :=
  if c = "simple" then 1
  else if c = "medium" then 2
  else if c = "complex" then 7/2
  else 2

/-- An entity record with both keys absent. -/
def eBare : Entity := { name := none, complexity := none }

/-- An entity record with an explicit medium complexity. -/
def eMedium : Entity := { name := none, complexity := some "medium" }

/-- An entity record with an unrecognized complexity tier. -/
def eLegendary : Entity := { name := some "Hero", complexity := some "legendary" }

/-- Input whose only category key is unrecognized. -/
def dWidgets : EntitiesData :=
  { categories := [("widgets", [eBare])], multipliers := [], migration := none,
    risk_level := none, assumptions := none, risks := none }

/-- The empty input: no categories, no configuration. -/
def dEmpty : EntitiesData :=
  { categories := [], multipliers := [], migration := none,
    risk_level := none, assumptions := none, risks := none }

/-- Result of `calculate_estimate` on `dEmpty`. -/
def rEmpty : EstimationResult :=
  { base_hours := 0, multiplier_hours := 0, migration_hours := 0,
    additional_hours := 531/5, subtotal := 531/5, buffer_hours := 531/25,
    total_hours := 3186/25, entity_breakdown := [], multipliers_applied := [],
    assumptions := DEFAULT_ASSUMPTIONS, risks := DEFAULT_RISKS }

/-- Input with base hours 100 (twelve medium content types and one medium
custom module), no multipliers and no migration. -/
def dBase100 : EntitiesData :=
  { categories := [("content_types", List.replicate 12 eMedium),
                   ("custom_modules", [eMedium])],
    multipliers := [], migration := none,
    risk_level := none, assumptions := none, risks := none }

/-- Result of `calculate_estimate` on `dBase100`. -/
def rBase100 : EstimationResult :=
  { base_hours := 100, multiplier_hours := 0, migration_hours := 0,
    additional_hours := 621/5, subtotal := 1121/5, buffer_hours := 1121/25,
    total_hours := 6726/25,
    entity_breakdown :=
      List.replicate 12 { name := "Unknown", type := "content_type",
                          complexity := "medium", hours := 6 } ++
      [{ name := "Unknown", type := "custom_module",
         complexity := "medium", hours := 28 }],
    multipliers_applied := [],
    assumptions := DEFAULT_ASSUMPTIONS, risks := DEFAULT_RISKS }

/-- Empty inventory with one multiplier and a 500-node medium migration. -/
def dMigr : EntitiesData :=
  { categories := [], multipliers := [("testing", 1/4)],
    migration := some { nodes := some 500, complexity := some "medium" },
    risk_level := none, assumptions := none, risks := none }

/-- Result of `calculate_estimate` on `dMigr`: base hours are 0 while the
applied-multiplier map is non-empty. -/
def rMigr : EstimationResult :=
  { base_hours := 0, multiplier_hours := 0, migration_hours := 130,
    additional_hours := 648/5, subtotal := 1298/5, buffer_hours := 1298/25,
    total_hours := 7788/25, entity_breakdown := [],
    multipliers_applied := [("testing", 0)],
    assumptions := DEFAULT_ASSUMPTIONS, risks := DEFAULT_RISKS }

/-- Input that supplies an empty assumptions list and an empty risks list. -/
def dEmptyLists : EntitiesData :=
  { categories := [], multipliers := [], migration := none,
    risk_level := none, assumptions := some [], risks := some [] }

/-- A result record whose grand total is zero, as the formatter receives it. -/
def rZeroTotal : EstimationResult :=
  { base_hours := 0, multiplier_hours := 0, migration_hours := 0,
    additional_hours := 0, subtotal := 0, buffer_hours := 0,
    total_hours := 0, entity_breakdown := [], multipliers_applied := [],
    assumptions := [], risks := [] }

/-- Two-element content-type inventory. -/
def cPair : List (String × List Entity) :=
  [("content_types", [eMedium, eLegendary])]

/-- The same inventory with the two entities swapped. -/
def cPairSwapped : List (String × List Entity) :=
  [("content_types", [eLegendary, eMedium])]

/-! ### Basic lookup lemmas -/

theorem strLower_medium : strLower "medium" = "medium" := rfl

theorem infra_lookup : (lookup "infrastructure_setup" ADDITIONAL_EFFORT).getD 0 = 60 := rfl

theorem training_lookup : (lookup "training_handover" ADDITIONAL_EFFORT).getD 0 = 30 := rfl

theorem lookup_getD_nonneg (l : List (String × ℚ)) (k : String) (d : ℚ)
    (hl : ∀ p ∈ l, 0 ≤ p.2) (hd : 0 ≤ d) : 0 ≤ (lookup k l).getD d := by
  induction l with
  | nil => simpa [lookup]
  | cons q tl ih =>
    obtain ⟨a, b⟩ := q
    by_cases hk : k = a
    · simpa [lookup, hk] using hl (a, b) (by simp)
    · simpa [lookup, hk] using ih fun p hp => hl p (List.mem_cons_of_mem _ hp)

theorem lookup_mem_values {α : Type} {l : List (String × α)} {k : String} {v : α}
    (h : lookup k l = some v) : v ∈ l.map Prod.snd := by
  induction l with
  | nil => simp [lookup] at h
  | cons q tl ih =>
    obtain ⟨a, b⟩ := q
    by_cases hk : k = a
    · simp [lookup, hk] at h
      simp [h]
    · simp only [lookup, hk, if_false] at h
      simp [ih h]

theorem lookup_eq_none {α : Type} {l : List (String × α)} {k : String}
    (h : ∀ p ∈ l, p.1 ≠ k) : lookup k l = none := by
  induction l with
  | nil => rfl
  | cons q tl ih =>
    obtain ⟨a, b⟩ := q
    have ha : a ≠ k := h (a, b) (by simp)
    simp only [lookup, Ne.symm ha, if_false]
    exact ih fun p hp => h p (List.mem_cons_of_mem _ hp)

theorem lookup_filter {α : Type} (p : String → Bool) (k : String) (hk : p k = true)
    (l : List (String × α)) :
    lookup k (l.filter fun kv => p kv.1) = lookup k l := by
  induction l with
  | nil => rfl
  | cons q tl ih =>
    obtain ⟨a, b⟩ := q
    by_cases hka : k = a
    · subst hka
      simp [List.filter_cons, hk, lookup]
    · cases hpa : p a with
      | true => simp [List.filter_cons, hpa, lookup, hka, ih]
      | false => simp [List.filter_cons, hpa, lookup, hka, ih]

/-! ### Characterization of `calculate_base_hours` -/

theorem calculate_entity_hours_eq (e : Entity) (ety : String)
    (h : (lookup ety ESTIMATION_TABLE).isSome = true) :
    calculate_entity_hours e ety = .ok (entityEstimateSpec e ety) := by
  unfold calculate_entity_hours entityEstimateSpec
  cases hl : lookup ety ESTIMATION_TABLE with
  | none => rw [hl] at h; simp at h
  | some tbl => simp [hl]

theorem processEntities_eq (l : List Entity) (ety : String)
    (h : (lookup ety ESTIMATION_TABLE).isSome = true) :
    processEntities l ety =
      .ok (hoursSum (l.map fun e => entityEstimateSpec e ety),
           l.map fun e => entityEstimateSpec e ety) := by
  induction l with
  | nil => simp [processEntities, hoursSum]
  | cons e rest ih =>
    simp [processEntities, calculate_entity_hours_eq e ety h, ih, hoursSum]

theorem calcBaseHoursAux_eq (km : List (String × String))
    (c : List (String × List Entity))
    (h : ∀ p ∈ km, (lookup p.2 ESTIMATION_TABLE).isSome = true) :
    calcBaseHoursAux km c = .ok (hoursSum (breakdownSpec km c), breakdownSpec km c) := by
  induction km with
  | nil => simp [calcBaseHoursAux, breakdownSpec, hoursSum]
  | cons p rest ih =>
    obtain ⟨key, ety⟩ := p
    have hety : (lookup ety ESTIMATION_TABLE).isSome = true := h (key, ety) (by simp)
    have hrest : ∀ q ∈ rest, (lookup q.2 ESTIMATION_TABLE).isSome = true :=
      fun q hq => h q (List.mem_cons_of_mem _ hq)
    cases hl : lookup key c with
    | none => simp [calcBaseHoursAux, breakdownSpec, hl, ih hrest]
    | some l =>
      simp [calcBaseHoursAux, breakdownSpec, hl, ih hrest,
        processEntities_eq l ety hety, hoursSum]

theorem entity_type_map_recognized :
    ∀ p ∈ entity_type_map, (lookup p.2 ESTIMATION_TABLE).isSome = true := by decide

theorem calculate_base_hours_eq (c : List (String × List Entity)) :
    calculate_base_hours c =
      .ok (hoursSum (breakdownSpec entity_type_map c), breakdownSpec entity_type_map c) :=
  calcBaseHoursAux_eq entity_type_map c entity_type_map_recognized

theorem calculate_estimate_eq (d : EntitiesData) :
    calculate_estimate d =
      .ok (estimateFrom d (hoursSum (breakdownSpec entity_type_map d.categories))
        (breakdownSpec entity_type_map d.categories)) := by
  unfold calculate_estimate
  rw [calculate_base_hours_eq]

/-! ### Non-negativity lemmas -/

theorem ESTIMATION_TABLE_values_nonneg :
    ∀ t ∈ ESTIMATION_TABLE.map Prod.snd, ∀ p ∈ t, 0 ≤ p.2 := by
  intro t ht p hp
  fin_cases ht <;> fin_cases hp <;> norm_num

theorem entityEstimateSpec_hours_nonneg (e : Entity) (ety : String) :
    0 ≤ (entityEstimateSpec e ety).hours := by
  unfold entityEstimateSpec
  cases hl : lookup ety ESTIMATION_TABLE with
  | none => simp
  | some tbl =>
    simp only
    exact lookup_getD_nonneg tbl _ 0
      (ESTIMATION_TABLE_values_nonneg tbl (lookup_mem_values hl)) le_rfl

theorem breakdownSpec_hours_nonneg :
    ∀ (km : List (String × String)) (c : List (String × List Entity)) (e : EntityEstimate),
      e ∈ breakdownSpec km c → 0 ≤ e.hours := by
  intro km
  induction km with
  | nil => intro c e he; simp [breakdownSpec] at he
  | cons p rest ih =>
    intro c e he
    obtain ⟨key, ety⟩ := p
    simp only [breakdownSpec] at he
    rcases List.mem_append.mp he with h1 | h2
    · cases hl : lookup key c with
      | none => rw [hl] at h1; simp at h1
      | some l =>
        rw [hl] at h1
        simp only [List.mem_map] at h1
        obtain ⟨e', _, rfl⟩ := h1
        exact entityEstimateSpec_hours_nonneg e' ety
    · exact ih c e h2

theorem hoursSum_nonneg (br : List EntityEstimate)
    (h : ∀ e ∈ br, 0 ≤ e.hours) : 0 ≤ hoursSum br := by
  unfold hoursSum
  apply List.sum_nonneg
  intro x hx
  rw [List.mem_map] at hx
  obtain ⟨e, he, rfl⟩ := hx
  exact h e he

theorem apply_multipliers_fst_nonneg (b : ℚ) (ms : List (String × ℚ))
    (hb : 0 ≤ b) (hm : ∀ p ∈ ms, 0 ≤ p.2) : 0 ≤ (apply_multipliers b ms).1 := by
  induction ms with
  | nil => simp [apply_multipliers]
  | cons p rest ih =>
    obtain ⟨k, pc⟩ := p
    have h1 : 0 ≤ b * pc := mul_nonneg hb (hm (k, pc) (by simp))
    have h2 := ih fun q hq => hm q (List.mem_cons_of_mem _ hq)
    rcases hrest : apply_multipliers b rest with ⟨t, ap⟩
    rw [hrest] at h2
    simp only at h2
    simp only [apply_multipliers, hrest]
    exact add_nonneg h1 h2

theorem MIGRATION_MULTIPLIERS_nonneg : ∀ p ∈ MIGRATION_MULTIPLIERS, 0 ≤ p.2 := by
  intro p hp
  fin_cases hp <;> norm_num

theorem BUFFER_PERCENTAGES_nonneg : ∀ p ∈ BUFFER_PERCENTAGES, 0 ≤ p.2 := by
  intro p hp
  fin_cases hp <;> norm_num

theorem calculate_migration_hours_nonneg (cfg : Option Migration)
    (h : ∀ m, cfg = some m → 0 ≤ m.nodes.getD 0) :
    0 ≤ calculate_migration_hours cfg := by
  cases cfg with
  | none => simp [calculate_migration_hours]
  | some m =>
    have hn := h m rfl
    simp only [calculate_migration_hours]
    by_cases h0 : m.nodes.getD 0 = 0
    · simp [h0]
    · simp only [h0, if_false]
      have hmult : 0 ≤ (lookup (strLower (m.complexity.getD "medium"))
          MIGRATION_MULTIPLIERS).getD 2 :=
        lookup_getD_nonneg _ _ _ MIGRATION_MULTIPLIERS_nonneg (by norm_num)
      have h1 : (0:ℚ) ≤ m.nodes.getD 0 / 100 := div_nonneg hn (by norm_num)
      have h2 : (0:ℚ) ≤ MIGRATION_BASE *
          (lookup (strLower (m.complexity.getD "medium")) MIGRATION_MULTIPLIERS).getD 2 :=
        mul_nonneg (by norm_num [MIGRATION_BASE]) hmult
      nlinarith

/-! ### Permutation and filter lemmas -/

theorem breakdownSpec_hoursSum_perm :
    ∀ (km : List (String × String)) (c1 c2 : List (String × List Entity)),
      (∀ p ∈ km, OptListPerm (lookup p.1 c1) (lookup p.1 c2)) →
      hoursSum (breakdownSpec km c1) = hoursSum (breakdownSpec km c2) := by
  intro km
  induction km with
  | nil => intro c1 c2 _; rfl
  | cons p rest ih =>
    intro c1 c2 h
    obtain ⟨key, ety⟩ := p
    have hkey := h (key, ety) (by simp)
    have hrest := fun q hq => h q (List.mem_cons_of_mem _ hq)
    have h2 := ih c1 c2 hrest
    simp only [breakdownSpec, hoursSum, List.map_append, List.sum_append] at h2 ⊢
    cases hl1 : lookup key c1 with
    | none =>
      cases hl2 : lookup key c2 with
      | none => simpa using h2
      | some l2 => rw [hl1, hl2] at hkey; simp [OptListPerm] at hkey
    | some l1 =>
      cases hl2 : lookup key c2 with
      | none => rw [hl1, hl2] at hkey; simp [OptListPerm] at hkey
      | some l2 =>
        rw [hl1, hl2] at hkey
        simp only [OptListPerm] at hkey
        have hsum : ((l1.map fun e => entityEstimateSpec e ety).map EntityEstimate.hours).sum =
            ((l2.map fun e => entityEstimateSpec e ety).map EntityEstimate.hours).sum :=
          List.Perm.sum_eq ((hkey.map fun e => entityEstimateSpec e ety).map EntityEstimate.hours)
        simp only [hsum, h2]

theorem breakdownSpec_filter (km : List (String × String))
    (c : List (String × List Entity))
    (h : ∀ p ∈ km, recognized_category p.1 = true) :
    breakdownSpec km (c.filter fun kv => recognized_category kv.1) =
      breakdownSpec km c := by
  induction km with
  | nil => rfl
  | cons q rest ih =>
    obtain ⟨key, ety⟩ := q
    simp only [breakdownSpec]
    rw [lookup_filter _ key (h (key, ety) (by simp)) c,
      ih fun p hp => h p (List.mem_cons_of_mem _ hp)]

/-! ### Concrete evaluations -/

theorem calc_dEmpty : calculate_estimate dEmpty = .ok rEmpty := by
  simp [dEmpty, rEmpty, calculate_estimate, calculate_base_hours, calcBaseHoursAux,
    entity_type_map, lookup, estimateFrom, apply_multipliers, calculate_migration_hours,
    calculate_pm_hours, PM_PERCENTAGE, ADDITIONAL_EFFORT, BUFFER_PERCENTAGES, strLower_medium]
  norm_num

theorem calc_dBase100 : calculate_estimate dBase100 = .ok rBase100 := by
  simp [dBase100, rBase100, eMedium, calculate_estimate, calculate_base_hours,
    calcBaseHoursAux, processEntities, calculate_entity_hours, ESTIMATION_TABLE,
    entity_type_map, lookup, estimateFrom, apply_multipliers, calculate_migration_hours,
    calculate_pm_hours, PM_PERCENTAGE, ADDITIONAL_EFFORT, BUFFER_PERCENTAGES,
    strLower_medium, List.replicate]
  norm_num

theorem calc_dMigr : calculate_estimate dMigr = .ok rMigr := by
  simp [dMigr, rMigr, calculate_estimate, calculate_base_hours, calcBaseHoursAux,
    entity_type_map, lookup, estimateFrom, apply_multipliers, calculate_migration_hours,
    calculate_pm_hours, PM_PERCENTAGE, ADDITIONAL_EFFORT, BUFFER_PERCENTAGES,
    strLower_medium, MIGRATION_MULTIPLIERS, MIGRATION_BASE]
  norm_num

theorem calc_dEmptyLists : calculate_estimate dEmptyLists =
    .ok { base_hours := 0, multiplier_hours := 0, migration_hours := 0,
          additional_hours := 531/5, subtotal := 531/5, buffer_hours := 531/25,
          total_hours := 3186/25, entity_breakdown := [], multipliers_applied := [],
          assumptions := [], risks := [] } := by
  simp [dEmptyLists, calculate_estimate, calculate_base_hours, calcBaseHoursAux,
    entity_type_map, lookup, estimateFrom, apply_multipliers, calculate_migration_hours,
    calculate_pm_hours, PM_PERCENTAGE, ADDITIONAL_EFFORT, BUFFER_PERCENTAGES, strLower_medium]
  norm_num

/-! ### Claim theorems -/

/-- C1 counterexample: an inventory whose only category key is the
unrecognized `"widgets"` does NOT raise — `calculate_base_hours` succeeds
with zero hours and an empty breakdown, and `calculate_estimate` returns a
result object, contrary to the claimed `UnknownCategory` failure. -/
theorem unknown_category_returns_result :
    calculate_base_hours dWidgets.categories = .ok (0, []) ∧
    (calculate_estimate dWidgets).map EstimationResult.base_hours = .ok 0 := by
  constructor
  · rw [calculate_base_hours_eq]
    simp [breakdownSpec, entity_type_map, lookup, hoursSum, dWidgets]
  · rw [calculate_estimate_eq]
    simp [Except.map, estimateFrom, breakdownSpec, entity_type_map, lookup,
      hoursSum, dWidgets]

/-- C1 (amended): entries under category keys the cost model does not define
are silently ignored by `calculate_base_hours` — removing every unrecognized
key from the inventory leaves its result (hours and breakdown) unchanged,
and no error is raised for them. -/
theorem unrecognized_categories_are_ignored (c : List (String × List Entity)) :
    calculate_base_hours (c.filter fun kv => recognized_category kv.1) =
      calculate_base_hours c := by
  rw [calculate_base_hours_eq, calculate_base_hours_eq,
    breakdownSpec_filter entity_type_map c (by decide)]

/-- C2: on every result the engine returns, the grand total is exactly the
subtotal plus the buffer, and the subtotal is exactly the sum of base,
multiplier, migration and additional hours (exact arithmetic, no rounding;
the embedding carries the unrounded values the code accumulates). -/
theorem estimate_sum_identities (d : EntitiesData) (r : EstimationResult)
    (h : calculate_estimate d = .ok r) :
    r.total_hours = r.subtotal + r.buffer_hours ∧
    r.subtotal = r.base_hours + r.multiplier_hours + r.migration_hours + r.additional_hours := by
  rw [calculate_estimate_eq] at h
  injection h with h
  subst h
  constructor
  · dsimp only [estimateFrom]
  · dsimp only [estimateFrom, calculate_pm_hours]
    ring

/-- C2 witness: the identities at the empty input. -/
theorem estimate_sum_identities_witness :
    rEmpty.total_hours = rEmpty.subtotal + rEmpty.buffer_hours ∧
    rEmpty.subtotal = rEmpty.base_hours + rEmpty.multiplier_hours +
      rEmpty.migration_hours + rEmpty.additional_hours :=
  estimate_sum_identities dEmpty rEmpty calc_dEmpty

/-- C3: `additional_hours` always equals the infrastructure and training
constants plus the PM hours, where the PM hours are 18% of the pre-PM
running subtotal (base + multiplier + migration + infrastructure +
training); at base 100, multiplier 0, migration 0 this gives PM hours
34.2 and additional hours 124.2. -/
theorem pm_and_additional_hours_formula (d : EntitiesData) (r : EstimationResult)
    (h : calculate_estimate d = .ok r) :
    r.additional_hours =
      (lookup "infrastructure_setup" ADDITIONAL_EFFORT).getD 0 +
      (lookup "training_handover" ADDITIONAL_EFFORT).getD 0 +
      calculate_pm_hours
        (r.base_hours + r.multiplier_hours + r.migration_hours +
         (lookup "infrastructure_setup" ADDITIONAL_EFFORT).getD 0 +
         (lookup "training_handover" ADDITIONAL_EFFORT).getD 0) PM_PERCENTAGE ∧
    (r.base_hours = 100 → r.multiplier_hours = 0 → r.migration_hours = 0 →
      calculate_pm_hours (r.base_hours + r.multiplier_hours + r.migration_hours + 60 + 30)
          PM_PERCENTAGE = 171/5 ∧
      r.additional_hours = 621/5) := by
  rw [calculate_estimate_eq] at h
  injection h with h
  subst h
  constructor
  · dsimp only [estimateFrom]
  · intro h100 hm0 hg0
    dsimp only [estimateFrom] at h100 hm0 hg0 ⊢
    rw [hm0, hg0, h100]
    rw [infra_lookup, training_lookup]
    constructor
    · norm_num [calculate_pm_hours, PM_PERCENTAGE]
    · norm_num [calculate_pm_hours, PM_PERCENTAGE]

/-- C3 witness: the concrete scenario base=100, multiplier=0, migration=0. -/
theorem pm_and_additional_hours_formula_witness :
    calculate_pm_hours (rBase100.base_hours + rBase100.multiplier_hours +
      rBase100.migration_hours + 60 + 30) PM_PERCENTAGE = 171/5 ∧
    rBase100.additional_hours = 621/5 :=
  (pm_and_additional_hours_formula dBase100 rBase100 calc_dBase100).2 rfl rfl rfl

/-- C4: migration hours are 0 for an absent/empty configuration or zero
nodes, and otherwise 30 plus (nodes/100) times (10 times the complexity
factor), the factor being simple=1.0, medium=2.0, complex=3.5 with an
unrecognized value defaulting to the medium rate; 500 medium nodes
give 130 hours. -/
theorem migration_hours_formula :
    (∀ cfg, calculate_migration_hours cfg =
      match cfg with
      | none => 0
      | some m =>
        if m.nodes.getD 0 = 0 then 0
        else 30 + m.nodes.getD 0 / 100 *
          (10 * claimedComplexityMultiplier (strLower (m.complexity.getD "medium")))) ∧
    calculate_migration_hours (some { nodes := some 500, complexity := some "medium" }) = 130 := by
  constructor
  · intro cfg
    cases cfg with
    | none => rfl
    | some m =>
      simp only [calculate_migration_hours]
      by_cases h0 : m.nodes.getD 0 = 0
      · simp [h0]
      · simp only [h0, if_false, MIGRATION_BASE]
        congr 2
        generalize strLower (m.complexity.getD "medium") = s
        by_cases h1 : s = "simple"
        · simp [lookup, MIGRATION_MULTIPLIERS, claimedComplexityMultiplier, h1]
        · by_cases h2 : s = "medium"
          · simp [lookup, MIGRATION_MULTIPLIERS, claimedComplexityMultiplier, h1, h2]
          · by_cases h3 : s = "complex"
            · simp [lookup, MIGRATION_MULTIPLIERS, claimedComplexityMultiplier, h1, h2, h3]
            · simp [lookup, MIGRATION_MULTIPLIERS, claimedComplexityMultiplier, h1, h2, h3]
  · simp [calculate_migration_hours, MIGRATION_MULTIPLIERS, MIGRATION_BASE,
      strLower_medium, lookup]
    norm_num

/-- C5 counterexample: the empty inventory with one multiplier yields a
result with `base_hours = 0` and a non-empty applied-multiplier map; on this
result the formatter's division faults instead of producing a sentinel. -/
theorem formatter_zero_base_division_faults :
    calculate_estimate dMigr = .ok rMigr ∧
    reportPercentages rMigr = .error "float division by zero" := by
  refine ⟨calc_dMigr, ?_⟩
  have htot : rMigr.total_hours ≠ 0 := by norm_num [rMigr]
  have hbase : rMigr.base_hours = 0 := rfl
  simp [reportPercentages, pydiv, htot, rMigr, multiplierRows,
    Except.instMonad, Except.bind]

/-- C5 (amended): the formatter does not guard its percentage divisions:
whenever `total_hours` is zero, and whenever `base_hours` is zero while the
applied-multiplier map is non-empty, the division faults (Python
`ZeroDivisionError`) — no sentinel value is substituted. -/
theorem formatter_division_unguarded (r : EstimationResult) :
    (r.total_hours = 0 → reportPercentages r = .error "float division by zero") ∧
    (r.base_hours = 0 → r.multipliers_applied ≠ [] → r.total_hours ≠ 0 →
      reportPercentages r = .error "float division by zero") := by
  constructor
  · intro h0
    simp [reportPercentages, pydiv, h0, Except.instMonad, Except.bind]
  · intro hb hne h0
    cases hma : r.multipliers_applied with
    | nil => exact absurd hma hne
    | cons p rest =>
      obtain ⟨k, v⟩ := p
      simp [reportPercentages, pydiv, h0, hma, multiplierRows, hb,
        Except.instMonad, Except.bind]

/-- C5 witness: the amended theorem at a concrete zero-total result. -/
theorem formatter_division_unguarded_witness :
    reportPercentages rZeroTotal = .error "float division by zero" :=
  (formatter_division_unguarded rZeroTotal).1 rfl

/-- C6: an entity of a recognized category whose resolved complexity is not
one of simple/medium/complex gets exactly 0 hours without an error, and
every entity of every breakdown the engine produces has non-negative
hours. -/
theorem unknown_complexity_zero_hours :
    (∀ (e : Entity) (ety : String),
      (lookup ety ESTIMATION_TABLE).isSome = true →
      strLower (e.complexity.getD "medium") ≠ "simple" →
      strLower (e.complexity.getD "medium") ≠ "medium" →
      strLower (e.complexity.getD "medium") ≠ "complex" →
      calculate_entity_hours e ety =
        .ok { name := e.name.getD "Unknown", type := ety,
              complexity := strLower (e.complexity.getD "medium"), hours := 0 }) ∧
    (∀ (c : List (String × List Entity)) (q : ℚ) (br : List EntityEstimate),
      calculate_base_hours c = .ok (q, br) → ∀ e ∈ br, 0 ≤ e.hours) := by
  constructor
  · intro e ety hety h1 h2 h3
    rw [calculate_entity_hours_eq e ety hety]
    unfold entityEstimateSpec
    cases hl : lookup ety ESTIMATION_TABLE with
    | none => rw [hl] at hety
    | some tbl =>
      have hkeys : ∀ t ∈ ESTIMATION_TABLE.map Prod.snd,
          ∀ p ∈ t, p.1 = "simple" ∨ p.1 = "medium" ∨ p.1 = "complex" := by decide
      have hnone : lookup (strLower (e.complexity.getD "medium")) tbl = none := by
        apply lookup_eq_none
        intro p hp
        rcases hkeys tbl (lookup_mem_values hl) p hp with hk | hk | hk
        · rw [hk]; exact fun hh => h1 hh.symm
        · rw [hk]; exact fun hh => h2 hh.symm
        · rw [hk]; exact fun hh => h3 hh.symm
      simp [hnone]
  · intro c q br h e he
    rw [calculate_base_hours_eq] at h
    injection h with h
    injection h with hq hbr
    subst hbr
    exact breakdownSpec_hours_nonneg entity_type_map c e he

/-- C6 witness: a `"legendary"` complexity on a content type resolves to 0
hours without an error. -/
theorem unknown_complexity_zero_hours_witness :
    calculate_entity_hours eLegendary "content_type" =
      .ok { name := "Hero", type := "content_type",
            complexity := "legendary", hours := 0 } :=
  unknown_complexity_zero_hours.1 eLegendary "content_type"
    (by decide) (by decide) (by decide) (by decide)

/-- C7 counterexample: supplying empty assumptions and risks lists yields a
result whose lists are empty — the canned defaults (which are non-empty) are
NOT substituted for a present-but-empty list, contrary to the claim. -/
theorem empty_lists_pass_through :
    (calculate_estimate dEmptyLists).map EstimationResult.assumptions = .ok [] ∧
    (calculate_estimate dEmptyLists).map EstimationResult.risks = .ok [] ∧
    DEFAULT_ASSUMPTIONS ≠ [] ∧ DEFAULT_RISKS ≠ [] := by
  refine ⟨?_, ?_, by simp [DEFAULT_ASSUMPTIONS], by simp [DEFAULT_RISKS]⟩
  · rw [calc_dEmptyLists]; rfl
  · rw [calc_dEmptyLists]; rfl

/-- C7 (amended): the result's assumptions and risks equal the
caller-supplied lists verbatim whenever the corresponding key is present —
even when the supplied list is empty — and equal the fixed canned defaults
exactly when the key is absent. -/
theorem assumptions_risks_resolution (d : EntitiesData) :
    (calculate_estimate d).map EstimationResult.assumptions =
      .ok (match d.assumptions with | some l => l | none => DEFAULT_ASSUMPTIONS) ∧
    (calculate_estimate d).map EstimationResult.risks =
      .ok (match d.risks with | some l => l | none => DEFAULT_RISKS) := by
  rw [calculate_estimate_eq]
  constructor
  · cases hda : d.assumptions <;> simp [Except.map, estimateFrom, hda]
  · cases hdr : d.risks <;> simp [Except.map, estimateFrom, hdr]

/-- C8: for a fixed inventory, permuting the entity records inside each
category's sequence leaves `base_hours` unchanged, while the breakdown is
the per-category map of the input lists in input order (within each
category of the fixed key-map order). -/
theorem base_hours_reorder_invariant (c1 c2 : List (String × List Entity))
    (hperm : ∀ p ∈ entity_type_map, OptListPerm (lookup p.1 c1) (lookup p.1 c2)) :
    (calculate_base_hours c1).map Prod.fst = (calculate_base_hours c2).map Prod.fst ∧
    (calculate_base_hours c1).map Prod.snd = .ok (breakdownSpec entity_type_map c1) := by
  constructor
  · rw [calculate_base_hours_eq, calculate_base_hours_eq]
    have hs := breakdownSpec_hoursSum_perm entity_type_map c1 c2 hperm
    simp [Except.map, hs]
  · rw [calculate_base_hours_eq]
    rfl

/-- C8 witness: swapping two content types leaves the base hours equal. -/
theorem base_hours_reorder_invariant_witness :
    (calculate_base_hours cPair).map Prod.fst =
      (calculate_base_hours cPairSwapped).map Prod.fst :=
  (base_hours_reorder_invariant cPair cPairSwapped (by
    intro p hp
    fin_cases hp <;> simp [cPair, cPairSwapped, lookup, OptListPerm, entity_type_map]
    all_goals exact List.Perm.swap eLegendary eMedium [])).1

/-- C9: every entity type the fixed key map can pass to
`calculate_entity_hours` is a key of `ESTIMATION_TABLE`, so the unknown
entity type error branch is unreachable through `calculate_base_hours`,
which therefore succeeds on every input inventory. -/
theorem base_hours_never_raises :
    (entity_type_map.all fun p => (lookup p.2 ESTIMATION_TABLE).isSome) = true ∧
    ∀ c : List (String × List Entity), (calculate_base_hours c).toOption.isSome = true := by
  refine ⟨by decide, fun c => ?_⟩
  rw [calculate_base_hours_eq]
  rfl

/-- C10: when all supplied multiplier rates and the migration node count are
non-negative, every hour field of the result is non-negative and the grand
total is at least the 90 fixed infrastructure-plus-training hours (so it is
never zero). -/
theorem estimate_fields_nonneg (d : EntitiesData) (r : EstimationResult)
    (hm : ∀ p ∈ d.multipliers, 0 ≤ p.2)
    (hn : ∀ m, d.migration = some m → 0 ≤ m.nodes.getD 0)
    (h : calculate_estimate d = .ok r) :
    0 ≤ r.base_hours ∧ 0 ≤ r.multiplier_hours ∧ 0 ≤ r.migration_hours ∧
    0 ≤ r.additional_hours ∧ 0 ≤ r.subtotal ∧ 0 ≤ r.buffer_hours ∧
    0 ≤ r.total_hours ∧ 90 ≤ r.total_hours := by
  rw [calculate_estimate_eq] at h
  injection h with h
  subst h
  have hb : 0 ≤ hoursSum (breakdownSpec entity_type_map d.categories) :=
    hoursSum_nonneg _ fun e he => breakdownSpec_hours_nonneg entity_type_map d.categories e he
  have hmul : 0 ≤ (apply_multipliers
      (hoursSum (breakdownSpec entity_type_map d.categories)) d.multipliers).1 :=
    apply_multipliers_fst_nonneg _ _ hb hm
  have hmig : 0 ≤ calculate_migration_hours d.migration :=
    calculate_migration_hours_nonneg _ hn
  have hbuf : 0 ≤ (lookup (strLower (d.risk_level.getD "medium"))
      BUFFER_PERCENTAGES).getD (1/5) :=
    lookup_getD_nonneg _ _ _ BUFFER_PERCENTAGES_nonneg (by norm_num)
  dsimp only [estimateFrom, calculate_pm_hours]
  rw [infra_lookup, training_lookup]
  set B := hoursSum (breakdownSpec entity_type_map d.categories) with hB
  set M := (apply_multipliers B d.multipliers).1 with hM
  set G := calculate_migration_hours d.migration with hG
  set P := (lookup (strLower (d.risk_level.getD "medium")) BUFFER_PERCENTAGES).getD (1/5)
    with hP
  have hpm : 0 ≤ (B + M + G + 60 + 30) * PM_PERCENTAGE :=
    mul_nonneg (by linarith) (by norm_num [PM_PERCENTAGE])
  have hbufh : 0 ≤ (B + M + G + 60 + 30 + (B + M + G + 60 + 30) * PM_PERCENTAGE) * P :=
    mul_nonneg (by linarith) hbuf
  refine ⟨hb, hmul, hmig, by linarith, by linarith, ?_, by linarith, by linarith⟩
  exact hbufh

/-- C10 witness: the non-negativity conclusions at the migration input. -/
theorem estimate_fields_nonneg_witness :
    0 ≤ rMigr.base_hours ∧ 0 ≤ rMigr.multiplier_hours ∧ 0 ≤ rMigr.migration_hours ∧
    0 ≤ rMigr.additional_hours ∧ 0 ≤ rMigr.subtotal ∧ 0 ≤ rMigr.buffer_hours ∧
    0 ≤ rMigr.total_hours ∧ 90 ≤ rMigr.total_hours :=
  estimate_fields_nonneg dMigr rMigr
    (by
      intro p hp
      simp only [dMigr] at hp
      fin_cases hp
      norm_num)
    (by
      intro m hm
      simp only [dMigr] at hm
      injection hm with hm
      subst hm
      norm_num)
    calc_dMigr
